import Mathlib

set_option maxRecDepth 8000

/-!
Verification development for the job-recommendation backend (src/app.js).

The service is a thin Express app over a MySQL table `job_roles` and the
OpenAI chat API.  We shallow-embed the three route handlers and the helper
functions as pure Lean functions.  External collaborators are passed in as
parameters:

  * `parse : String → Option JsValue` models `JSON.parse` (`none` = the
    string is not valid JSON, so `JSON.parse` throws);
  * `AIResult` models the outcome of the `openai.chat.completions.create`
    call inside `getAIJobRoles`;
  * `detailsResp : String → Option String` models the upstream call inside
    `getAIDetailsForJob` (`none` = the call threw or had no usable content,
    `some s` = the returned message content).

JavaScript exceptions are modelled with `Except JsError`; the route-level
`try/catch` blocks turn an error into the 500 response exactly as the code
does.  Strings are modelled as Lean `String` (JS UTF-16 code-unit indexing
and Lean code-point indexing agree on the BMP text used throughout).
-/

/-- A JavaScript/JSON value, as produced by `JSON.parse`, `req.body`, and
the mysql2 driver rows' serialized columns. -/
inductive JsValue where
  | null
  | undefined
  | bool (b : Bool)
  | num (n : Int)
  | str (s : String)
  | arr (elems : List JsValue)
  | obj (fields : List (String × JsValue))

/-- A thrown JavaScript error, as far as the handlers can observe one. -/
inductive JsError where
  | referenceError (name : String)
  | typeError (msg : String)

/-- JavaScript truthiness: `null`, `undefined`, `false`, `0` and the empty
string are falsy; arrays and objects (even empty ones) are truthy. -/
def truthy : JsValue → Bool
  | .null => false
  | .undefined => false
  | .bool b => b
  | .num n => n != 0
  | .str s => !s.isEmpty
  | .arr _ => true
  | .obj _ => true

/-- `Array.isArray`. -/
def isArray : JsValue → Bool
  | .arr _ => true
  | _ => false

/-- JS property access `v.k`: throws `TypeError` on `null`/`undefined`,
returns `undefined` for a missing field or for a primitive receiver. -/
def getProp : JsValue → String → Except JsError JsValue
  | .null, k => .error (.typeError k)
  | .undefined, k => .error (.typeError k)
  | .obj fields, k => .ok ((fields.lookup k).getD .undefined)
  | _, _ => .ok .undefined

/-- Field extraction without the throwing cases, for stating properties of
already-built response objects. -/
def getField (v : JsValue) (k : String) : JsValue :=
  match v with
  | .obj fields => (fields.lookup k).getD .undefined
  | _ => .undefined

/-- The JSON error body `res.json(\x7b error: msg \x7d)` used by every
error response in src/app.js. -/
def errObj (msg : String) : JsValue := .obj [("error", .str msg)]

/-- Does a JSON body carry an `error` field?  Used to state the error
contract of the HTTP surface. -/
def hasErrorField (v : JsValue) : Bool :=
  match v with
  | .obj fields => (fields.lookup "error").isSome
  | _ => false

/-- `safeParse` (src/app.js lines 59-69): falsy input yields `[]`; a string
is `JSON.parse`d, with a parse failure caught and turned into `[]`; every
other value is returned unchanged. -/
def safeParse (parse : String → Option JsValue) (value : JsValue) : JsValue :=
  if !truthy value then .arr []
  else
    match value with
    | .str s =>
      match parse s with
      | some v => v
      | none => .arr []
    | v => v

/-- JS `s.substring(0, n)`: the first `min n s.length` characters. -/
def jsTake (s : String) (n : Nat) : String := String.mk (s.data.take n)

/-- JS `toLowerCase()` and MySQL `LOWER(...)`: character-wise lowering
(ASCII, which covers every name in play). -/
def jsToLower (s : String) : String := String.mk (s.data.map Char.toLower)

/-- Whitespace trimming (as in MySQL `TRIM` on spaces and JS `trim()` on
the strings in play), used to state the spec's "whitespace-trimmed"
lookup. -/
def trimWs (s : String) : String :=
  String.mk
    (((s.data.dropWhile Char.isWhitespace).reverse.dropWhile
        Char.isWhitespace).reverse)

/-- A row of the `job_roles` table (schema from the INSERT at src/app.js
lines 194-204: role_name, description, tech_stack, resume_keywords,
project_ideas are text; roadmap_link is nullable text). -/
structure Row where
  role_name : String
  description : String
  tech_stack : String
  resume_keywords : String
  project_ideas : String
  roadmap_link : Option String

/-- Outcome of the `openai.chat.completions.create` call in
`getAIJobRoles`: the call threw, returned no choices, or returned a message
whose content is the given string. -/
inductive AIResult where
  | throws
  | noChoices
  | content (s : String)

/-- `getAIJobRoles` (src/app.js lines 74-128).  The `catch` block at lines
115-127 references `res`, which is not in scope in this function, so every
caught error is replaced by `ReferenceError: res is not defined`, which
rejects the returned promise.  The recognized response shapes (lines
109-114): a bare array, an object with an array `roles` field, an object
with an array `jobs` field; anything else is logged and yields `[]`.
`JSON.parse(null)` after a null parse result never happens here, but
`parsed.roles` on a parsed `null` throws a `TypeError`, which is caught and
again replaced by the `res` `ReferenceError`. -/
def getAIJobRoles (parse : String → Option JsValue) (resp : AIResult) :
    Except JsError (List JsValue) :=
  match resp with
  | .throws => .error (.referenceError "res")
  | .noChoices => .error (.referenceError "res")
  | .content s =>
    match parse s with
    | none => .error (.referenceError "res")
    | some (.arr l) => .ok l
    | some parsed =>
      match getProp parsed "roles" with
      | .error _ => .error (.referenceError "res")
      | .ok (.arr l) => .ok l
      | .ok _ =>
        match getProp parsed "jobs" with
        | .error _ => .error (.referenceError "res")
        | .ok (.arr l) => .ok l
        | .ok _ => .ok []

/-- `getAIDetailsForJob` (src/app.js lines 130-150): any failure of the
upstream call or of `JSON.parse` is caught and becomes `null`. -/
def getAIDetailsForJob (parse : String → Option JsValue)
    (detailsResp : String → Option String) (roleName : String) : JsValue :=
  match detailsResp roleName with
  | none => .null
  | some content =>
    match parse content with
    | none => .null
    | some v => v

/-- One iteration of `for (const r of aiRoles)` in the `/recommend` handler
(src/app.js lines 169-216).  Line 170 evaluates
`typeof r === "string" ? r : r.role` and line 171 evaluates
`r.score || null`; both property accesses throw on a `null`/`undefined`
element.  Line 173-176 then calls `db.query` with the parameter list
`[role_name]` — but the declared variable is `roleName`; `role_name` is an
undeclared identifier, and reading it in an ES module raises
`ReferenceError: role_name is not defined` before the query can run.  The
rest of the loop body (the cache-hit branch at lines 179-188 and the miss
branch at lines 189-215) is therefore unreachable on every iteration and is
not embedded: no SELECT executes, no row is inserted, no entry is pushed. -/
def recommendIteration (r : JsValue) : Except JsError Unit :=
  match (match r with
         | .str s => Except.ok (JsValue.str s)
         | _ => getProp r "role") with
  | .error e => .error e
  | .ok _roleName =>
    match getProp r "score" with
    | .error e => .error e
    | .ok s =>
      let _score := if truthy s then s else JsValue.null
      .error (.referenceError "role_name")

/-- The whole `for` loop over the AI suggestions, accumulating `finalJobs`.
Because `recommendIteration` always throws, the accumulation (which the
source performs with `finalJobs.push`) can never receive an entry; on the
empty suggestion list the loop finishes with the empty accumulator. -/
def recommendLoop : List JsValue → Except JsError (List JsValue)
  | [] => .ok []
  | r :: rest =>
    match recommendIteration r with
    | .error e => .error e
    | .ok _ => recommendLoop rest

/-- The validation test at src/app.js line 158:
`!skills || !Array.isArray(skills) || skills.length === 0`. -/
def skillsInvalid (skills : JsValue) : Bool :=
  !truthy skills || !isArray skills ||
    (match skills with
     | .arr [] => true
     | _ => false)

/-- The observable outcome of one `POST /recommend` request: HTTP status,
JSON body, the table contents afterwards, and how many external operations
actually ran (completion calls for suggestions, completion calls for role
details, database queries that were issued). -/
structure RecOutcome where
  status : Nat
  body : JsValue
  store : List Row
  suggestCalls : Nat
  detailCalls : Nat
  dbOps : Nat

/-- `app.post("/recommend")` (src/app.js lines 155-223).  `reqBody` is the
JSON object parsed by `express.json()`.  The handler body sits in a
`try/catch` whose catch responds `500 \x7b error: "Something went wrong" \x7d`;
both a failure of `getAIJobRoles` (the `res` `ReferenceError` from its own
catch block) and the `role_name` `ReferenceError` in the loop end up there. -/
def postRecommend (parse : String → Option JsValue) (aiResp : AIResult)
    (store : List Row) (reqBody : List (String × JsValue)) : RecOutcome :=
  let skills := (reqBody.lookup "skills").getD .undefined
  if skillsInvalid skills then
    ⟨400, errObj "Skills array required", store, 0, 0, 0⟩
  else
    match getAIJobRoles parse aiResp with
    | .error _ => ⟨500, errObj "Something went wrong", store, 1, 0, 0⟩
    | .ok aiRoles =>
      match recommendLoop aiRoles with
      | .ok finalJobs => ⟨200, .arr finalJobs, store, 1, 0, 0⟩
      | .error _ => ⟨500, errObj "Something went wrong", store, 1, 0, 0⟩

/-- Value of a hexadecimal digit, as accepted by `decodeURIComponent`. -/
def hexVal (c : Char) : Option Nat :=
  if '0' ≤ c ∧ c ≤ '9' then some (c.toNat - 48)
  else if 'a' ≤ c ∧ c ≤ 'f' then some (c.toNat - 97 + 10)
  else if 'A' ≤ c ∧ c ≤ 'F' then some (c.toNat - 65 + 10)
  else none

/-- `decodeURIComponent` on a character list: `%XY` with hex digits decodes
to the character with that code; a malformed escape raises `URIError`
(modelled as `none`).  Only single-byte (ASCII) escapes are modelled —
multi-byte UTF-8 escape sequences, which the claims never use, are mapped
to `none` as well. -/
def percentDecodeList : List Char → Option (List Char)
  | [] => some []
  | '%' :: a :: b :: rest =>
    match hexVal a, hexVal b with
    | some x, some y =>
      if 16 * x + y < 128 then
        match percentDecodeList rest with
        | some cs => some (Char.ofNat (16 * x + y) :: cs)
        | none => none
      else none
    | _, _ => none
  | '%' :: _ => none
  | c :: rest =>
    match percentDecodeList rest with
    | some cs => some (c :: cs)
    | none => none

/-- `decodeURIComponent` on a string. -/
def percentDecode (s : String) : Option String :=
  (percentDecodeList s.data).map String.mk

/-- The row filter of the `GET /job/:role` query (src/app.js lines
228-231): `WHERE LOWER(role_name) = ?`, with the parameter already
lower-cased by the handler.  `MySQL =` is modelled as exact equality of the
lower-cased strings; note that there is no `TRIM` on either side, unlike
the (unreachable) SELECT of the `/recommend` loop. -/
def nameMatches (queried : String) (row : Row) : Bool :=
  jsToLower row.role_name == jsToLower queried

/-- The 200 body of `GET /job/:role` (src/app.js lines 238-245), built
from a stored row. -/
def jobJson (parse : String → Option JsValue) (job : Row) : JsValue :=
  .obj [("role", .str job.role_name),
        ("description", .str job.description),
        ("techStack", safeParse parse (.str job.tech_stack)),
        ("resumeKeywords", safeParse parse (.str job.resume_keywords)),
        ("projectIdeas", safeParse parse (.str job.project_ideas)),
        ("roadmapLink", match job.roadmap_link with
                        | some s => .str s
                        | none => .null)]

/-- `app.get("/job/:role")` (src/app.js lines 225-250).  The path
parameter is `decodeURIComponent`ed and lower-cased (line 227); a
`URIError` from decoding is caught at line 246 and becomes the generic 500.
The query lower-cases the parameter once more (line 231), which is
idempotent but embedded as written. -/
def getJobHandler (parse : String → Option JsValue) (store : List Row)
    (param : String) : Nat × JsValue :=
  match percentDecode param with
  | none => (500, errObj "Something went wrong")
  | some decoded =>
    let role := jsToLower decoded
    match store.filter (nameMatches (jsToLower role)) with
    | [] => (404, errObj "Job not found")
    | job :: _ => (200, jobJson parse job)

/-- The callback of `.map` over a parsed `project_ideas` list
(src/app.js lines 259-261): `typeof p === "string" ? p : p.title`.
A `null`/`undefined` element makes the property access throw. -/
def mapIdea (p : JsValue) : Except JsError JsValue :=
  match p with
  | .str s => .ok (.str s)
  | _ => getProp p "title"

/-- Left-to-right JS `Array.prototype.map` with a throwing callback: the
first throw aborts the whole map. -/
def mapList (f : JsValue → Except JsError JsValue) :
    List JsValue → Except JsError (List JsValue)
  | [] => .ok []
  | p :: rest =>
    match f p with
    | .error e => .error e
    | .ok q =>
      match mapList f rest with
      | .error e => .error e
      | .ok qs => .ok (q :: qs)

/-- `safeParse(row.project_ideas).map(...)` (src/app.js line 259): calling
`.map` on a non-array value (which `safeParse` can return, e.g. for a
column holding valid JSON that is not a list) throws a `TypeError`. -/
def mapIdeas (v : JsValue) : Except JsError JsValue :=
  match v with
  | .arr l =>
    match mapList mapIdea l with
    | .error e => .error e
    | .ok qs => .ok (.arr qs)
  | _ => .error (.typeError "map")

/-- One entry of the `GET /jobs` response (src/app.js lines 256-263):
role name, a 120-character preview with `"..."` always appended,
the reduced project-idea titles, and `row.roadmap_link || null` (which
collapses a NULL column and an empty string to `null`). -/
def jobsEntry (parse : String → Option JsValue) (row : Row) :
    Except JsError JsValue :=
  match mapIdeas (safeParse parse (.str row.project_ideas)) with
  | .error e => .error e
  | .ok ideas =>
    .ok (.obj [("role", .str row.role_name),
               ("preview", .str (jsTake row.description 120 ++ "...")),
               ("projectIdeas", ideas),
               ("roadmapLink", match row.roadmap_link with
                               | some s => if s.isEmpty then .null else .str s
                               | none => .null)])

/-- Did an embedded JS computation finish without throwing? -/
def exOk {ε α : Type} : Except ε α → Bool
  | .ok _ => true
  | .error _ => false

/-- Row order used to model `ORDER BY role_name ASC` (src/app.js line 254):
lexicographic comparison of the role names.  (The collation is modelled as
binary; the claims use it only through "sorted ascending by role name".) -/
def rowLe (a b : Row) : Prop := a.role_name ≤ b.role_name

instance : DecidableRel rowLe :=
  fun a b => inferInstanceAs (Decidable (a.role_name ≤ b.role_name))

instance : IsTotal Row rowLe := ⟨fun a b => le_total a.role_name b.role_name⟩

instance : IsTrans Row rowLe := ⟨fun _ _ _ h₁ h₂ => le_trans h₁ h₂⟩

/-- `SELECT * FROM job_roles ORDER BY role_name ASC`: the stored rows in
ascending name order (a stable sort of the table contents). -/
def sortRowsByName (rows : List Row) : List Row := List.insertionSort rowLe rows

/-- `rows.map(...)` over the sorted rows (src/app.js line 256), with a
throwing callback, JS maps left to right and the first throw aborts. -/
def mapEntries (f : Row → Except JsError JsValue) :
    List Row → Except JsError (List JsValue)
  | [] => .ok []
  | r :: rest =>
    match f r with
    | .error e => .error e
    | .ok entry =>
      match mapEntries f rest with
      | .error e => .error e
      | .ok entries => .ok (entry :: entries)

/-- `app.get("/jobs")` (src/app.js lines 252-270): map every stored row to
its entry; any throw inside the mapping is caught at line 266 and becomes
the generic 500. -/
def getJobsHandler (parse : String → Option JsValue) (store : List Row) :
    Nat × JsValue :=
  match mapEntries (jobsEntry parse) (sortRowsByName store) with
  | .ok entries => (200, .arr entries)
  | .error _ => (500, errObj "Something went wrong")

/-! Concrete fixtures.  `parse0` is the restriction of `JSON.parse` to the
JSON texts the scenarios below use (every mapped string really is the JSON
text of the mapped value). -/

/-- A 150-character stored description (long enough for both preview
cutoffs). -/
def longDesc : String := String.mk (List.replicate 150 'd')

/-- Provider content suggesting one role that is already stored. -/
def suggestOneContent : String :=
  "\x7b\"roles\":[\x7b\"role\":\"Backend Developer\",\"score\":85\x7d]\x7d"

/-- Provider content suggesting one role absent from the store. -/
def suggestCloudContent : String :=
  "\x7b\"roles\":[\x7b\"role\":\"Cloud Architect\",\"score\":70\x7d]\x7d"

/-- Provider content suggesting one role absent from the store, for which
detail generation succeeds. -/
def suggestDataContent : String :=
  "\x7b\"roles\":[\x7b\"role\":\"Data Engineer\",\"score\":88\x7d]\x7d"

/-- Provider content suggesting one stored role with score 50. -/
def suggestScoreContent : String :=
  "\x7b\"roles\":[\x7b\"role\":\"QA Engineer\",\"score\":50\x7d]\x7d"

/-- Provider content whose JSON is a bare list of four role names. -/
def fourContent : String :=
  "[\"Backend Developer\",\"Data Engineer\",\"QA Engineer\",\"Cloud Architect\"]"

/-- The four suggestions parsed from `fourContent`. -/
def fourList : List JsValue :=
  [.str "Backend Developer", .str "Data Engineer", .str "QA Engineer",
   .str "Cloud Architect"]

/-- Provider content carrying the same four suggestions under a `roles`
field (the shape the prompt demands). -/
def rolesFourContent : String :=
  "\x7b\"roles\":[\"Backend Developer\",\"Data Engineer\",\"QA Engineer\",\"Cloud Architect\"]\x7d"

/-- Provider content carrying the same four suggestions under a `jobs`
field. -/
def jobsFourContent : String :=
  "\x7b\"jobs\":[\"Backend Developer\",\"Data Engineer\",\"QA Engineer\",\"Cloud Architect\"]\x7d"

/-- Generated detail for the role `Data Engineer`, as `getAIDetailsForJob`
would parse it. -/
def dataEngDetail : JsValue :=
  .obj [("jobrole", .str "Data Engineer"),
        ("description", .str "Builds and maintains data pipelines."),
        ("techStack", .arr [.str "Python", .str "Spark"]),
        ("resumeKeywords", .arr [.str "ETL"]),
        ("projectIdeas", .arr [.str "Build a small warehouse"]),
        ("roadmapLink", .str "https://roadmap.sh/data")]

/-- The JSON text of `dataEngDetail`. -/
def dataEngDetailContent : String :=
  "\x7b\"jobrole\":\"Data Engineer\",\"description\":\"Builds and maintains data pipelines.\",\"techStack\":[\"Python\",\"Spark\"],\"resumeKeywords\":[\"ETL\"],\"projectIdeas\":[\"Build a small warehouse\"],\"roadmapLink\":\"https://roadmap.sh/data\"\x7d"

/-- `JSON.parse` restricted to the texts used by the concrete scenarios. -/
def parse0 : String → Option JsValue := fun s =>
  if s = suggestOneContent then
    some (.obj [("roles", .arr [.obj [("role", .str "Backend Developer"),
                                      ("score", .num 85)]])])
  else if s = suggestCloudContent then
    some (.obj [("roles", .arr [.obj [("role", .str "Cloud Architect"),
                                      ("score", .num 70)]])])
  else if s = suggestDataContent then
    some (.obj [("roles", .arr [.obj [("role", .str "Data Engineer"),
                                      ("score", .num 88)]])])
  else if s = suggestScoreContent then
    some (.obj [("roles", .arr [.obj [("role", .str "QA Engineer"),
                                      ("score", .num 50)]])])
  else if s = fourContent then some (.arr fourList)
  else if s = rolesFourContent then some (.obj [("roles", .arr fourList)])
  else if s = jobsFourContent then some (.obj [("jobs", .arr fourList)])
  else if s = dataEngDetailContent then some dataEngDetail
  else if s = "[]" then some (.arr [])
  else if s = "5" then some (.num 5)
  else none

/-- Detail responder that always fails (every `describeRole` yields none). -/
def details0 : String → Option String := fun _ => none

/-- Detail responder that succeeds exactly for `Data Engineer`. -/
def details4 : String → Option String := fun r =>
  if r = "Data Engineer" then some dataEngDetailContent else none

/-- A stored row whose description has 150 characters. -/
def backendRow : Row :=
  ⟨"Backend Developer", longDesc, "[]", "[]", "[]",
   some "https://roadmap.sh/backend"⟩

/-- A stored row matched by the score-50 suggestion. -/
def qaRow : Row := ⟨"QA Engineer", "Tests software.", "[]", "[]", "[]", none⟩

/-- A stored row with an all-lower-case name. -/
def devopsRow : Row :=
  ⟨"devops", "Runs the infrastructure.", "[]", "[]", "[]", none⟩

/-- A stored row with a mixed-case name for the case-variant lookup. -/
def devRow : Row :=
  ⟨"DevOps Engineer", "Automates delivery pipelines across environments.",
   "[]", "[]", "[]", none⟩

/-- A stored row whose `project_ideas` column holds the valid JSON text
`5`, which `safeParse` returns as a number. -/
def badIdeasRow : Row := ⟨"Data Analyst", "Analyzes data.", "[]", "[]", "5", none⟩

/-- Two well-formed rows listed out of name order. -/
def aRow : Row := ⟨"ARole", "Short.", "[]", "[]", "[]", none⟩

/-- See `aRow`. -/
def zRow : Row :=
  ⟨"ZRole", "Another short description.", "[]", "[]", "[]",
   some "https://roadmap.sh/z"⟩

/-! Helper lemmas shared by the claim theorems. -/

/-- Every iteration of the `/recommend` loop throws: either the property
access on a `null`/`undefined` suggestion throws a `TypeError`, or the
undeclared `role_name` in the query's parameter list throws a
`ReferenceError`. -/
theorem recommendIteration_error (r : JsValue) :
    ∃ e, recommendIteration r = .error e := by
  cases r <;> exact ⟨_, rfl⟩

/-- Hence the loop fails on every non-empty suggestion list. -/
theorem recommendLoop_cons (r : JsValue) (rest : List JsValue) :
    ∃ e, recommendLoop (r :: rest) = .error e := by
  obtain ⟨e, he⟩ := recommendIteration_error r
  exact ⟨e, by simp [recommendLoop, he]⟩

/-- If every element maps without throwing, the JS `map` returns the list
of results, pointwise. -/
theorem mapEntries_ok (f : Row → Except JsError JsValue) (l : List Row)
    (h : ∀ r ∈ l, exOk (f r) = true) :
    ∃ ys, mapEntries f l = .ok ys ∧
      List.Forall₂ (fun r y => f r = .ok y) l ys := by
  induction l with
  | nil => exact ⟨[], rfl, .nil⟩
  | cons r rest ih =>
    have hr : exOk (f r) = true := h r (List.mem_cons_self r rest)
    obtain ⟨y, hy⟩ : ∃ y, f r = .ok y := by
      cases hf : f r with
      | ok y => exact ⟨y, rfl⟩
      | error e => rw [hf] at hr; simp [exOk] at hr
    obtain ⟨ys, hys, hfa⟩ := ih (fun x hx => h x (List.mem_cons_of_mem r hx))
    exact ⟨y :: ys, by simp [mapEntries, hy, hys], .cons hy hfa⟩

/-- A successful `/jobs` entry carries the 120-character preview of the
row's description with the ellipsis appended. -/
theorem jobsEntry_preview (parse : String → Option JsValue) (row : Row)
    (e : JsValue) (h : jobsEntry parse row = .ok e) :
    getField e "preview" = .str (jsTake row.description 120 ++ "...") := by
  unfold jobsEntry at h
  cases hm : mapIdeas (safeParse parse (.str row.project_ideas)) with
  | error e2 => rw [hm] at h; exact absurd h (by simp)
  | ok ideas =>
    rw [hm] at h
    injection h with h
    subst h
    rfl

/-- Previews built from a 120-character cut are at most 123 characters. -/
theorem preview_length_le (d : String) :
    (jsTake d 120 ++ "...").length ≤ 123 := by
  have h1 : (jsTake d 120).length ≤ 120 := by
    show (d.data.take 120).length ≤ 120
    rw [List.length_take]
    exact min_le_left _ _
  have h2 : (jsTake d 120 ++ "...").length = (jsTake d 120).length + 3 := by
    rw [String.length_append]; rfl
  omega

/-! Claim theorems. -/

/-- Claim C1.  The claim says: when a suggested role's normalized name
matches a stored row whose description has length at least 130, the
recommend flow queries the store by the normalized name and returns an
entry whose preview is the first 130 characters of the stored description
plus "...".  The code cannot do this: the parameter list of the SELECT
reads the undeclared identifier `role_name` (src/app.js line 175; the
declared variable is `roleName`), so the loop throws a `ReferenceError`
and the whole request answers 500 with the generic error body — no query
by the suggested name runs, and no entry with a preview is ever built.
This theorem evaluates the handler at such a failing input: the suggestion
`Backend Developer` (score 85) matches the stored row byte for byte and the
stored description has 150 ≥ 130 characters, yet the response is the 500
error, the result list is absent, and no external call beyond the
suggestion call happened. -/
theorem claim1_hit_preview_code_bug :
    130 ≤ longDesc.length ∧
    backendRow.role_name = "Backend Developer" ∧
    postRecommend parse0 (.content suggestOneContent) [backendRow]
        [("skills", .arr [.str "sql"])] =
      ⟨500, errObj "Something went wrong", [backendRow], 1, 0, 0⟩ :=
  ⟨by decide, rfl, rfl⟩

/-- Claim C2.  The claim says: a suggested role absent from the store for
which `getAIDetailsForJob` returns none is skipped, the other roles are
still processed, and the request ends 200.  In the code the loop throws the
`role_name` `ReferenceError` (src/app.js line 175) before the store lookup,
so the request answers 500; `getAIDetailsForJob` is never called
(detailCalls = 0).  Moreover, even with that lookup fixed, line 192
dereferences `jobDetails.jobRole` before the `if (jobDetails)` null check,
so a none detail would throw a `TypeError` instead of being skipped.  Here
the detail responder returns none for the suggested role `Cloud Architect`
(so `getAIDetailsForJob` yields null, the claim's scenario), the store is
empty, and the handler answers 500 instead of 200 with an empty list. -/
theorem claim2_skip_missing_details_code_bug :
    getAIDetailsForJob parse0 details0 "Cloud Architect" = .null ∧
    postRecommend parse0 (.content suggestCloudContent) []
        [("skills", .arr [.str "aws"])] =
      ⟨500, errObj "Something went wrong", [], 1, 0, 0⟩ :=
  ⟨rfl, rfl⟩

/-- Claim C3 (confirmed).  For every request whose body has a non-empty
`skills` array, `POST /recommend` answers either 200 with a JSON array or a
4xx/5xx whose body carries an `error` field — never an unhandled fault; and
when the upstream suggestion call errors the whole request answers 500 with
`error: "Something went wrong"`, the store untouched, no partial result. -/
theorem claim3_no_unhandled_fault (parse : String → Option JsValue)
    (aiResp : AIResult) (store : List Row)
    (reqBody : List (String × JsValue)) (xs : List JsValue)
    (hx : reqBody.lookup "skills" = some (.arr xs)) (hne : xs ≠ []) :
    (((postRecommend parse aiResp store reqBody).status = 200 ∧
      isArray (postRecommend parse aiResp store reqBody).body = true) ∨
     (400 ≤ (postRecommend parse aiResp store reqBody).status ∧
      (postRecommend parse aiResp store reqBody).status < 600 ∧
      hasErrorField (postRecommend parse aiResp store reqBody).body = true)) ∧
    (aiResp = .throws →
      postRecommend parse aiResp store reqBody =
        ⟨500, errObj "Something went wrong", store, 1, 0, 0⟩) := by
  have hinv : skillsInvalid (.arr xs) = false := by
    cases xs with
    | nil => exact absurd rfl hne
    | cons a t => rfl
  cases hai : getAIJobRoles parse aiResp with
  | error e =>
    have hpost : postRecommend parse aiResp store reqBody =
        ⟨500, errObj "Something went wrong", store, 1, 0, 0⟩ := by
      simp [postRecommend, hx, hinv, hai]
    refine ⟨Or.inr ?_, fun _ => hpost⟩
    rw [hpost]
    exact ⟨by norm_num, by norm_num, rfl⟩
  | ok aiRoles =>
    have hthrow : aiResp ≠ .throws := by
      intro h
      subst h
      simp [getAIJobRoles] at hai
    cases aiRoles with
    | nil =>
      have hpost : postRecommend parse aiResp store reqBody =
          ⟨200, .arr [], store, 1, 0, 0⟩ := by
        simp [postRecommend, hx, hinv, hai, recommendLoop]
      exact ⟨Or.inl ⟨by rw [hpost], by rw [hpost]; rfl⟩,
             fun h => absurd h hthrow⟩
    | cons r rest =>
      obtain ⟨e, he⟩ := recommendLoop_cons r rest
      have hpost : postRecommend parse aiResp store reqBody =
          ⟨500, errObj "Something went wrong", store, 1, 0, 0⟩ := by
        simp [postRecommend, hx, hinv, hai, he]
      refine ⟨Or.inr ?_, fun h => absurd h hthrow⟩
      rw [hpost]
      exact ⟨by norm_num, by norm_num, rfl⟩

/-- Witness for C3 at a concrete input: one skill, upstream call throws. -/
theorem claim3_no_unhandled_fault_witness :
    postRecommend parse0 .throws [] [("skills", .arr [.str "sql"])] =
      ⟨500, errObj "Something went wrong", [], 1, 0, 0⟩ :=
  (claim3_no_unhandled_fault parse0 .throws [] [("skills", .arr [.str "sql"])]
    [.str "sql"] rfl (fun h => nomatch h)).2 rfl

/-- Claim C4.  The claim says a role inserted via the recommend-miss path
is afterwards retrievable via `GET /job/:role` with the generated fields.
The miss path is unreachable: the loop throws the `role_name`
`ReferenceError` (src/app.js line 175) before the lookup, so no insert ever
happens.  Here detail generation for the suggested `Data Engineer` would
succeed (first conjunct), yet the request answers 500, the store stays
empty, detailCalls = 0, and the subsequent `GET /job/data%20engineer`
answers 404. -/
theorem claim4_roundtrip_code_bug :
    getAIDetailsForJob parse0 details4 "Data Engineer" = dataEngDetail ∧
    postRecommend parse0 (.content suggestDataContent) []
        [("skills", .arr [.str "spark"])] =
      ⟨500, errObj "Something went wrong", [], 1, 0, 0⟩ ∧
    getJobHandler parse0 [] "data%20engineer" = (404, errObj "Job not found") :=
  ⟨rfl, rfl, rfl⟩

/-- Counterexample for claim C5: the lookup of `GET /job/:role` is NOT
whitespace-trimmed.  The store holds the role `devops`; requesting
`%20devops` (which percent-decodes to ` devops`, equal to the stored name
after trimming and lower-casing — third conjunct) answers 404 instead of
the 200 the claimed trimmed match would produce. -/
theorem claim5_counterexample :
    getJobHandler parse0 [devopsRow] "%20devops" =
      (404, errObj "Job not found") ∧
    percentDecode "%20devops" = some " devops" ∧
    trimWs (jsToLower " devops") = trimWs (jsToLower devopsRow.role_name) :=
  ⟨rfl, rfl, rfl⟩

/-- Claim C5 as amended: the `GET /job/:role` lookup percent-decodes the
path parameter and compares lower-cased names exactly, with no whitespace
trimming: if no stored row's lower-cased name equals the lower-cased
decoded parameter the answer is 404 `Job not found`; otherwise the first
matching row is returned as 200 with the stored fields. -/
theorem claim5_lookup_no_trim (parse : String → Option JsValue)
    (store : List Row) (param d : String) (r : Row)
    (hdec : percentDecode param = some d) :
    (store.filter (nameMatches (jsToLower (jsToLower d))) = [] →
      getJobHandler parse store param = (404, errObj "Job not found")) ∧
    ((store.filter (nameMatches (jsToLower (jsToLower d)))).head? = some r →
      getJobHandler parse store param = (200, jobJson parse r)) := by
  constructor
  · intro h
    simp [getJobHandler, hdec, h]
  · intro h
    cases hf : store.filter (nameMatches (jsToLower (jsToLower d))) with
    | nil => rw [hf] at h; exact absurd h (by simp)
    | cons a tl =>
      rw [hf] at h
      simp only [List.head?_cons, Option.some.injEq] at h
      subst h
      simp [getJobHandler, hdec, hf]

/-- Witness for C5 as amended: a case- and percent-encoding variant of the
stored `DevOps Engineer` answers 200 with the stored fields, and an unknown
role answers 404. -/
theorem claim5_lookup_no_trim_witness :
    getJobHandler parse0 [devRow] "DeVoPs%20EnGiNeEr" =
      (200, jobJson parse0 devRow) ∧
    getJobHandler parse0 [devRow] "unknown" = (404, errObj "Job not found") :=
  ⟨(claim5_lookup_no_trim parse0 [devRow] "DeVoPs%20EnGiNeEr"
      "DeVoPs EnGiNeEr" devRow rfl).2 rfl,
   (claim5_lookup_no_trim parse0 [devRow] "unknown" "unknown" devRow rfl).1 rfl⟩

/-- Counterexample for claim C6: `getAIJobRoles` enforces no length bound.
When the provider's content parses to a bare list of four suggestions, all
four are returned, so the claimed "length at most 3, whatever list the
provider's response contains" is false. -/
theorem claim6_counterexample :
    getAIJobRoles parse0 (.content fourContent) = .ok fourList ∧
    fourList.length = 4 ∧ ¬fourList.length ≤ 3 :=
  ⟨rfl, rfl, by decide⟩

/-- Claim C6 as amended: for every non-empty skills list, `suggestRoles`
returns the provider's parsed list unchanged in each recognized shape —
a bare array, the array under a `roles` field, or (when `roles` is not an
array) the array under a `jobs` field — of whatever length the provider
supplies; the top-3 bound lives only in the prompt text, no truncation is
applied. -/
theorem claim6_no_truncation (parse : String → Option JsValue) (s : String)
    (xs : List JsValue) :
    (parse s = some (.arr xs) →
      getAIJobRoles parse (.content s) = .ok xs) ∧
    (∀ fields, parse s = some (.obj fields) →
      fields.lookup "roles" = some (.arr xs) →
      getAIJobRoles parse (.content s) = .ok xs) ∧
    (∀ fields, parse s = some (.obj fields) →
      isArray ((fields.lookup "roles").getD .undefined) = false →
      fields.lookup "jobs" = some (.arr xs) →
      getAIJobRoles parse (.content s) = .ok xs) := by
  refine ⟨?_, ?_, ?_⟩
  · intro h
    simp [getAIJobRoles, h]
  · intro fields h hr
    simp [getAIJobRoles, h, getProp, hr]
  · intro fields h hr hj
    cases hv : (fields.lookup "roles").getD .undefined with
    | arr l => rw [hv] at hr; simp [isArray] at hr
    | null => simp [getAIJobRoles, h, getProp, hv, hj]
    | undefined => simp [getAIJobRoles, h, getProp, hv, hj]
    | bool b => simp [getAIJobRoles, h, getProp, hv, hj]
    | num n => simp [getAIJobRoles, h, getProp, hv, hj]
    | str t => simp [getAIJobRoles, h, getProp, hv, hj]
    | obj g => simp [getAIJobRoles, h, getProp, hv, hj]

/-- Witness for C6 as amended at the four-element provider responses, one
per recognized shape: bare array, `roles` field, `jobs` field. -/
theorem claim6_no_truncation_witness :
    getAIJobRoles parse0 (.content fourContent) = .ok fourList ∧
    getAIJobRoles parse0 (.content rolesFourContent) = .ok fourList ∧
    getAIJobRoles parse0 (.content jobsFourContent) = .ok fourList :=
  ⟨(claim6_no_truncation parse0 fourContent fourList).1 rfl,
   (claim6_no_truncation parse0 rolesFourContent fourList).2.1
     [("roles", .arr fourList)] rfl rfl,
   (claim6_no_truncation parse0 jobsFourContent fourList).2.2
     [("jobs", .arr fourList)] rfl rfl rfl⟩

/-- Claim C7.  The claim says every suggested role contributing an entry
carries the suggestion's score.  No suggested role ever contributes an
entry: the loop throws the `role_name` `ReferenceError` (src/app.js line
175) on its first iteration, so for the stored role `QA Engineer` suggested
with score 50 the handler answers 500 with the generic error body and no
entry at all.  (Independently, line 171 computes `r.score || null`, which
would turn the in-range score 0 into `null` even on the intended path.) -/
theorem claim7_score_code_bug :
    postRecommend parse0 (.content suggestScoreContent) [qaRow]
        [("skills", .arr [.str "testing"])] =
      ⟨500, errObj "Something went wrong", [qaRow], 1, 0, 0⟩ := rfl

/-- Claim C8 (confirmed).  A missing `skills` field, a non-array `skills`
value, or an empty `skills` array makes `POST /recommend` answer 400 with
body `error: "Skills array required"`, with the store unchanged and zero
AI calls and zero database operations. -/
theorem claim8_validation (parse : String → Option JsValue)
    (aiResp : AIResult) (store : List Row)
    (reqBody : List (String × JsValue))
    (h : reqBody.lookup "skills" = none ∨
         (∃ v, reqBody.lookup "skills" = some v ∧ isArray v = false) ∨
         reqBody.lookup "skills" = some (.arr [])) :
    postRecommend parse aiResp store reqBody =
      ⟨400, errObj "Skills array required", store, 0, 0, 0⟩ := by
  have hinv : skillsInvalid ((reqBody.lookup "skills").getD .undefined) = true := by
    rcases h with h | ⟨v, hv, hav⟩ | h
    · rw [h]; rfl
    · rw [hv]
      simp [skillsInvalid, hav]
    · rw [h]; rfl
  simp [postRecommend, hinv]

/-- Witness for C8 at the three concrete bad bodies. -/
theorem claim8_validation_witness :
    postRecommend parse0 .throws [] [] =
      ⟨400, errObj "Skills array required", [], 0, 0, 0⟩ ∧
    postRecommend parse0 .throws [] [("skills", .str "js")] =
      ⟨400, errObj "Skills array required", [], 0, 0, 0⟩ ∧
    postRecommend parse0 .throws [] [("skills", .arr [])] =
      ⟨400, errObj "Skills array required", [], 0, 0, 0⟩ :=
  ⟨claim8_validation parse0 .throws [] [] (Or.inl rfl),
   claim8_validation parse0 .throws [] [("skills", .str "js")]
     (Or.inr (Or.inl ⟨.str "js", rfl, rfl⟩)),
   claim8_validation parse0 .throws [] [("skills", .arr [])]
     (Or.inr (Or.inr rfl))⟩

/-- Counterexample for claim C9: `GET /jobs` does not always return the
stored roles.  A stored row whose `project_ideas` column holds the valid
JSON text `5` makes `safeParse` return a number, `.map` on it throws, and
the whole request answers 500 with the generic error body instead of the
claimed sorted listing. -/
theorem claim9_counterexample :
    safeParse parse0 (.str badIdeasRow.project_ideas) = .num 5 ∧
    getJobsHandler parse0 [badIdeasRow] =
      (500, errObj "Something went wrong") :=
  ⟨rfl, rfl⟩

/-- Claim C9 as amended: whenever every stored row's `project_ideas` column
deserializes to a list free of null/undefined entries (so that no entry
construction throws), `GET /jobs` answers 200 with one entry per stored row
in ascending role-name order, and every entry's preview is the first (at
most 120)-character cut of the row's description with "..." always
appended — hence at most 123 characters. -/
theorem claim9_jobs_sorted (parse : String → Option JsValue)
    (store : List Row)
    (h : ∀ row ∈ store, exOk (jobsEntry parse row) = true) :
    ∃ entries : List JsValue,
      getJobsHandler parse store = (200, .arr entries) ∧
      List.Forall₂ (fun row e => jobsEntry parse row = .ok e)
        (sortRowsByName store) entries ∧
      (sortRowsByName store).Perm store ∧
      List.Sorted rowLe (sortRowsByName store) ∧
      (∀ row e, jobsEntry parse row = .ok e →
        getField e "preview" = .str (jsTake row.description 120 ++ "...") ∧
        (jsTake row.description 120 ++ "...").length ≤ 123) := by
  have hmem : ∀ r ∈ sortRowsByName store, exOk (jobsEntry parse r) = true :=
    fun r hr => h r ((List.perm_insertionSort rowLe store).subset hr)
  obtain ⟨ys, hys, hfa⟩ := mapEntries_ok (jobsEntry parse) _ hmem
  refine ⟨ys, ?_, hfa, List.perm_insertionSort rowLe store,
          List.sorted_insertionSort rowLe store, ?_⟩
  · unfold getJobsHandler
    rw [hys]
  · intro row e he
    exact ⟨jobsEntry_preview parse row e he, preview_length_le row.description⟩

/-- Witness for C9 as amended: two well-formed rows given out of order. -/
theorem claim9_jobs_sorted_witness :
    ∃ entries, getJobsHandler parse0 [zRow, aRow] = (200, JsValue.arr entries) := by
  obtain ⟨entries, h1, _⟩ := claim9_jobs_sorted parse0 [zRow, aRow] (by decide)
  exact ⟨entries, h1⟩

/-- Counterexample for claim C10: the number 0 is a non-string value that
is neither null, undefined, nor empty, yet `safeParse` does not return it
unchanged — it is falsy, so the result is the empty list. -/
theorem claim10_counterexample :
    safeParse (fun _ => none) (.num 0) = .arr [] ∧
    JsValue.num 0 ≠ JsValue.arr [] :=
  ⟨rfl, fun h => nomatch h⟩

/-- Claim C10 as amended: `safeParse` is total; every falsy value (null,
undefined, false, 0, the empty string) yields the empty list; a truthy
string yields the `JSON.parse` result, or the empty list when parsing
fails, even when the parsed value is not a list; every truthy non-string
value is returned unchanged. -/
theorem claim10_safeParse_total (parse : String → Option JsValue)
    (v : JsValue) :
    (truthy v = false → safeParse parse v = .arr []) ∧
    (∀ s, v = .str s → truthy v = true →
      safeParse parse v = (parse s).getD (.arr [])) ∧
    (truthy v = true → (∀ s, v ≠ .str s) → safeParse parse v = v) := by
  refine ⟨?_, ?_, ?_⟩
  · intro h
    simp [safeParse, h]
  · rintro s rfl h
    cases hp : parse s <;> simp [safeParse, h, hp]
  · intro h hs
    cases v with
    | str s => exact absurd rfl (hs s)
    | null => simp [truthy] at h
    | undefined => simp [truthy] at h
    | bool b => simp [truthy] at h; simp [safeParse, truthy, h]
    | num n => simp [truthy] at h; simp [safeParse, truthy, h]
    | arr l => simp [safeParse, truthy]
    | obj fields => simp [safeParse, truthy]

/-- Witness for C10 as amended: the truthy number 7 is returned
unchanged. -/
theorem claim10_safeParse_total_witness :
    safeParse (fun _ => none) (.num 7) = .num 7 :=
  (claim10_safeParse_total (fun _ => none) (.num 7)).2.2 rfl
    (fun _ h => nomatch h)
